import Mathlib

/-!
Verification model of `src/logging.c` from gmrender-resurrect.

The C file keeps process-wide static state (three file descriptors, a color
flag and three markup strings), writes log lines through `Log_internal`, and
persists two small playback-state files.  We embed the file shallowly:

* file contents are lists of characters (`Str`);
* the open-descriptor table is `FS`: a map from descriptor number to the
  accumulated contents of the file it refers to (writes to a descriptor that
  is not open, such as the sentinel `-1`, fail with `EBADF` and transfer no
  bytes — modelled as the identity);
* the static globals of logging.c form `LoggerState`;
* the OS-dependent outcomes at `Log_init` time (whether each `open` call
  succeeds, whether `isatty(log_fd)` holds, prior file contents seen by
  `O_APPEND`) are collected in `Env`;
* `time_t` and C `int` are modelled as mathematical integers (the claims
  stay far from any overflow boundary); C integer division and remainder
  truncate toward zero, hence `Int.tdiv` / `Int.tmod`;
* the wall-clock timestamp that `Log_internal` renders with `localtime_r` +
  `strftime` is an input (`now`), while `gmtime`/`strftime "%F %T"` used by
  `log_last_playback` is computed exactly (`gmtimeFT`).
-/

namespace GmLogging

/-- File and message contents: C byte strings as lists of characters. -/
abbrev Str := List Char

/-- Literal helper: the characters of a Lean string literal. -/
def str (s : String) : Str := s.data

/-- The newline character `\n`. -/
def nlChar : Char := Char.ofNat 10

/-- The one-character string `"\n"` (third iovec part in `Log_internal`). -/
def nl : Str := [nlChar]

/-- The single-quote character used in `UPNP_LAST_PLAYED='...'`. -/
def squote : Char := Char.ofNat 39

/-- The ANSI escape character `\033` starting every color sequence. -/
def escChar : Char := Char.ofNat 27

/-- The open-descriptor table: descriptor number to accumulated contents.
`nextFd` is the next number the kernel hands out on `open`. -/
structure FS where
  nextFd : Int
  content : Int → Option Str

/-- `STDERR_FILENO`. -/
def STDERR_FILENO : Int := 2

/-- `write(fd, data, len)`: appends to the open file `fd` refers to
(all descriptors here are `O_APPEND`); writing to a descriptor that is not
open fails and transfers nothing.  Return values are ignored in the C. -/
def FS.write (fs : FS) (fd : Int) (data : Str) : FS :=
  { fs with content := fun f =>
      if f = fd then (fs.content f).map (fun c => c ++ data) else fs.content f }

/-- `ftruncate(fd, 0)`: empties the open file `fd` refers to; fails with no
effect on a descriptor that is not open. -/
def FS.ftruncate (fs : FS) (fd : Int) : FS :=
  { fs with content := fun f =>
      if f = fd then (fs.content f).map (fun _ => []) else fs.content f }

/-- A successful `open(path, O_CREAT|O_APPEND|O_WRONLY, 0644)`: returns the
next free descriptor, referring to the file with its prior contents
(empty when the file was just created). -/
def FS.openAppend (fs : FS) (initial : Str) : Int × FS :=
  (fs.nextFd,
   { nextFd := fs.nextFd + 1,
     content := fun f => if f = fs.nextFd then some initial else fs.content f })

/-- The static globals of logging.c. -/
structure LoggerState where
  log_fd : Int
  last_played_fd : Int
  playback_fd : Int
  enable_color : Bool
  info_markup_start_ : Str
  error_markup_start_ : Str
  markup_end_ : Str
deriving DecidableEq

/-- `kInfoHighlight`. -/
def kInfoHighlight : Str := str "\x1b[1mINFO  "

/-- `kErrorHighlight`. -/
def kErrorHighlight : Str := str "\x1b[1m\x1b[31mERROR "

/-- `kTermReset`. -/
def kTermReset : Str := str "\x1b[0m"

/-- The globals' values at program start: all descriptors `-1`, color off,
plain markup strings. -/
def startState : LoggerState :=
  { log_fd := -1, last_played_fd := -1, playback_fd := -1,
    enable_color := false,
    info_markup_start_ := str "INFO  ",
    error_markup_start_ := str "ERROR ",
    markup_end_ := str "" }

/-- The descriptor table at program start: stderr (2) open, 3 next free. -/
def startFS : FS :=
  { nextFd := 3, content := fun f => if f = STDERR_FILENO then some [] else none }

/-- OS-dependent outcomes of one `Log_init` call: which path arguments are
non-NULL, whether each `open` succeeds, the prior contents each opened file
carries, whether `isatty(log_fd)` reports a terminal, and the `errno` text
`perror` would print. -/
structure Env where
  filenameGiven : Bool
  lastPlayedGiven : Bool
  playbackGiven : Bool
  logOpenOk : Bool
  lastOpenOk : Bool
  playOpenOk : Bool
  logIsTty : Bool
  logInitial : Str
  lastInitial : Str
  playInitial : Str
  errnoText : Str

/-- `perror(msg)`: writes `msg`, a colon-space, the `errno` text and a
newline to stderr. -/
def perror (fs : FS) (msg errnoText : Str) : FS :=
  fs.write STDERR_FILENO (msg ++ str ": " ++ errnoText ++ nl)

/-- Tail of `Log_init` after the three opens: `enable_color = isatty(log_fd)`
(`isatty` on the invalid descriptor `-1` reports false), and when it holds
the three markup strings switch to the highlight constants. -/
def finishInit (env : Env) (st : LoggerState) (fs : FS) : LoggerState × FS :=
  let color := if st.log_fd < 0 then false else env.logIsTty
  if color then
    ({ st with enable_color := true,
               info_markup_start_ := kInfoHighlight,
               error_markup_start_ := kErrorHighlight,
               markup_end_ := kTermReset }, fs)
  else
    ({ st with enable_color := false }, fs)

/-- Third block of `Log_init`: open the playback-time file when a path was
given; on failure `perror` and return at once. -/
def initPlayback (env : Env) (st : LoggerState) (fs : FS) : LoggerState × FS :=
  if env.playbackGiven then
    if env.playOpenOk then
      let (fd, fs1) := fs.openAppend env.playInitial
      finishInit env { st with playback_fd := fd } fs1
    else
      (st, perror fs (str "Cannot open playback time file") env.errnoText)
  else
    finishInit env st fs

/-- Second block of `Log_init`: open the last-played file when a path was
given; on failure `perror` and return at once. -/
def initLastPlayed (env : Env) (st : LoggerState) (fs : FS) : LoggerState × FS :=
  if env.lastPlayedGiven then
    if env.lastOpenOk then
      let (fd, fs1) := fs.openAppend env.lastInitial
      initPlayback env { st with last_played_fd := fd } fs1
    else
      (st, perror fs (str "Cannot open last played file") env.errnoText)
  else
    initPlayback env st fs

/-- `Log_init(filename, last_played_file, playback_time_file)`, run from
program start in environment `env`. -/
def Log_init (env : Env) : LoggerState × FS :=
  if env.filenameGiven then
    if env.logOpenOk then
      let (fd, fs1) := startFS.openAppend env.logInitial
      initLastPlayed env { startState with log_fd := fd } fs1
    else
      (startState, perror startFS (str "Cannot open logfile") env.errnoText)
  else
    initLastPlayed env startState startFS

/-- `Log_color_allowed()`. -/
def Log_color_allowed (st : LoggerState) : Bool := st.enable_color

/-- `Log_info_enabled()`: `log_fd >= 0`. -/
def Log_info_enabled (st : LoggerState) : Bool := decide (0 ≤ st.log_fd)

/-- `Log_error_enabled()`: always 1. -/
def Log_error_enabled (_st : LoggerState) : Bool := true

/-- The first iovec part of `Log_internal`:
`"%s[%s | %s]%s "` of markup start, timestamp, category, markup end. -/
def logHeader (markup_start markup_end now category : Str) : Str :=
  (markup_start ++ str "[" ++ now ++ str " | " ++ category ++ str "]" ++ markup_end)
  ++ str " "

/-- `parts[1].iov_len > 0 && base[len-1] == '\n'`: does the rendered
message end with a newline? -/
def lastIsNewline (s : Str) : Bool := decide (s.getLast? = some nlChar)

/-- The bytes one `writev` call of `Log_internal` transfers: header, message,
and the `"\n"` part exactly when the message does not already end in one. -/
def logLine (markup_start markup_end now category msg : Str) : Str :=
  logHeader markup_start markup_end now category ++ msg ++
  (if lastIsNewline msg then [] else nl)

/-- `Log_internal(fd, markup_start, category, format, ap)`: one atomic
`writev` of the assembled line; `now` is the `strftime "%F %T"` rendering of
the current local time, `msg` the `vasprintf` rendering of format and
arguments. -/
def Log_internal (st : LoggerState) (fs : FS) (fd : Int)
    (markup_start now category msg : Str) : FS :=
  fs.write fd (logLine markup_start st.markup_end_ now category msg)

/-- `Log_info(category, format, ...)`. -/
def Log_info (now category msg : Str) (p : LoggerState × FS) : LoggerState × FS :=
  let (st, fs) := p
  if st.log_fd < 0 then (st, fs)
  else (st, Log_internal st fs st.log_fd st.info_markup_start_ now category msg)

/-- `Log_error(category, format, ...)`. -/
def Log_error (now category msg : Str) (p : LoggerState × FS) : LoggerState × FS :=
  let (st, fs) := p
  (st, Log_internal st fs (if st.log_fd < 0 then STDERR_FILENO else st.log_fd)
        st.error_markup_start_ now category msg)

/-- `print_log(level, category, format, ...)`; `debug_level` is the global
threshold owned by the surrounding application (config.h). -/
def print_log (debug_level level : Int) (now category msg : Str)
    (p : LoggerState × FS) : LoggerState × FS :=
  let (st, fs) := p
  if debug_level < level then (st, fs)
  else (st, Log_internal st fs (if st.log_fd < 0 then STDERR_FILENO else st.log_fd)
             st.info_markup_start_ now category msg)

/-- `sprintf "%02d"`: decimal rendering zero-padded on the left to width 2. -/
def pad2 (n : Int) : Str :=
  let s := (toString n).data
  if s.length < 2 then Char.ofNat 48 :: s else s

/-- Civil calendar date (year, month, day) of a day count relative to
1970-01-01, as `gmtime` computes it (proleptic Gregorian). -/
def civilFromDays (z0 : Int) : Int × Int × Int :=
  let z : Int := z0 + 719468
  let era : Int := z.fdiv 146097
  let doe : Nat := (z - era * 146097).toNat
  let yoe : Nat := (doe - doe / 1460 + doe / 36524 - doe / 146096) / 365
  let doy : Nat := doe - (365 * yoe + yoe / 4 - yoe / 100)
  let mp : Nat := (5 * doy + 2) / 153
  let d : Nat := doy - (153 * mp + 2) / 5 + 1
  let m : Int := if mp < 10 then (mp : Int) + 3 else (mp : Int) - 9
  let y : Int := (yoe : Int) + era * 400 + (if m ≤ 2 then 1 else 0)
  (y, m, (d : Int))

/-- `gmtime(&t)` followed by `strftime(.., "%F %T", ..)`: the UTC timestamp
rendered as `YYYY-MM-DD HH:MM:SS`. -/
def gmtimeFT (t : Int) : Str :=
  let days := t.fdiv 86400
  let secs : Nat := (t - days * 86400).toNat
  match civilFromDays days with
  | (y, m, d) =>
    (toString y).data ++ str "-" ++ pad2 m ++ str "-" ++ pad2 d ++ str " " ++
    pad2 ((secs / 3600 : Nat) : Int) ++ str ":" ++
    pad2 (((secs / 60) % 60 : Nat) : Int) ++ str ":" ++
    pad2 ((secs % 60 : Nat) : Int)

/-- The buffer `log_last_playback` writes:
`UPNP_LAST_PLAYED='<UTC %F %T>'\n`. -/
def lastPlayedLine (playstart : Int) : Str :=
  str "UPNP_LAST_PLAYED=" ++ [squote] ++ gmtimeFT playstart ++ [squote] ++ nl

/-- `log_last_playback(playstart)`: format the UTC timestamp, truncate the
last-played descriptor to zero length and write the single line.  The
descriptor is used unconditionally; when it is the invalid `-1` both calls
fail and transfer nothing. -/
def log_last_playback (playstart : Int) (p : LoggerState × FS) : LoggerState × FS :=
  let (st, fs) := p
  (st, (fs.ftruncate st.last_played_fd).write st.last_played_fd
        (lastPlayedLine playstart))

/-- The buffer `log_playback_duration` writes: `UPNP_TOTAL=<rawSeconds>\n`
(`sprintf "%d"`). -/
def durationLine (rawSeconds : Int) : Str :=
  str "UPNP_TOTAL=" ++ (toString rawSeconds).data ++ nl

/-- The message `log_playback_duration` hands to `print_log`:
`Total playing time %02d:%02d:%02d\n` of `rawSeconds/3600`,
`(rawSeconds/60)%60`, `rawSeconds%60` (C division truncates toward zero). -/
def durationMsg (rawSeconds : Int) : Str :=
  str "Total playing time " ++ pad2 (rawSeconds.tdiv 3600) ++ str ":" ++
  pad2 ((rawSeconds.tdiv 60).tmod 60) ++ str ":" ++
  pad2 (rawSeconds.tmod 60) ++ nl

/-- `log_playback_duration(playstart, playend)`:
`rawSeconds = (int)difftime(playend, playstart)` (exact integer difference
in seconds), truncate the playback descriptor, write `UPNP_TOTAL=...`, then
emit the duration message through `print_log(0, "transport", ...)`. -/
def log_playback_duration (debug_level : Int) (now : Str)
    (playstart playend : Int) (p : LoggerState × FS) : LoggerState × FS :=
  let (st, fs) := p
  let rawSeconds := playend - playstart
  let fs1 := (fs.ftruncate st.playback_fd).write st.playback_fd
               (durationLine rawSeconds)
  print_log debug_level 0 now (str "transport") (durationMsg rawSeconds) (st, fs1)

/-- Number of newline characters at the front of a character list. -/
def leadNL : Str → Nat
  | [] => 0
  | c :: rest => if c = nlChar then leadNL rest + 1 else 0

/-- Number of newline characters at the end of a character list. -/
def trailingNL (s : Str) : Nat := leadNL s.reverse

/-- Whether `Log_init` ends up enabling color in environment `env`: the
terminal check is reached (no open failed among the requested ones), the
log descriptor is valid, and it is a terminal.  This closed form is proved
against `Log_init` in `Log_init_color_fields`. -/
def colorOn (env : Env) : Bool :=
  env.filenameGiven && env.logOpenOk &&
  (!env.lastPlayedGiven || env.lastOpenOk) &&
  (!env.playbackGiven || env.playOpenOk) && env.logIsTty

/-- An initialization environment in which every open succeeds on an empty
regular (non-terminal) file. -/
def envAllOk : Env :=
  { filenameGiven := true, lastPlayedGiven := true, playbackGiven := true,
    logOpenOk := true, lastOpenOk := true, playOpenOk := true,
    logIsTty := false, logInitial := [], lastInitial := [], playInitial := [],
    errnoText := [] }

/-- An initialization environment in which opening the general log file
fails while the two state files could be opened. -/
def envLogFail : Env :=
  { envAllOk with logOpenOk := false }

/-- An initialization environment in which the general log opens onto an
interactive terminal but opening the last-played file fails. -/
def envTtyLastFail : Env :=
  { envAllOk with logIsTty := true, lastOpenOk := false }

/-- Logger state after an init in which only the general log was opened
(descriptor 3): both state-file descriptors hold the sentinel `-1`. -/
def stLogOnly : LoggerState :=
  { startState with log_fd := 3 }

/-- Descriptor table matching `stLogOnly`: stderr and the log file open. -/
def fsLogOnly : FS :=
  { nextFd := 4,
    content := fun f => if f = 2 then some [] else if f = 3 then some [] else none }

/-- Logger state after an init in which all three files opened
(descriptors 3, 4, 5). -/
def stFull : LoggerState :=
  { startState with log_fd := 3, last_played_fd := 4, playback_fd := 5 }

/-- Descriptor table matching `stFull`. -/
def fsFull : FS :=
  { nextFd := 6,
    content := fun f =>
      if f = 2 then some [] else if f = 3 then some [] else
      if f = 4 then some [] else if f = 5 then some [] else none }

/-! ### Helper lemmas on the descriptor table -/

theorem FS.eq_of_content {fs fs' : FS} (h1 : fs.nextFd = fs'.nextFd)
    (h2 : ∀ f, fs.content f = fs'.content f) : fs = fs' := by
  cases fs with
  | mk n c =>
    cases fs' with
    | mk n' c' =>
      simp only [FS.mk.injEq]
      exact ⟨h1, funext h2⟩

theorem FS.content_write_self (fs : FS) (fd : Int) (data : Str) :
    (fs.write fd data).content fd = (fs.content fd).map (fun c => c ++ data) := by
  simp [FS.write]

theorem FS.content_write_ne (fs : FS) (fd f : Int) (data : Str) (h : f ≠ fd) :
    (fs.write fd data).content f = fs.content f := by
  simp [FS.write, h]

theorem FS.content_ftruncate_self (fs : FS) (fd : Int) :
    (fs.ftruncate fd).content fd = (fs.content fd).map (fun _ => []) := by
  simp [FS.ftruncate]

theorem FS.content_ftruncate_ne (fs : FS) (fd f : Int) (h : f ≠ fd) :
    (fs.ftruncate fd).content f = fs.content f := by
  simp [FS.ftruncate, h]

theorem FS.write_not_open (fs : FS) (fd : Int) (data : Str)
    (h : fs.content fd = none) : fs.write fd data = fs := by
  refine FS.eq_of_content rfl (fun f => ?_)
  by_cases hf : f = fd
  · subst hf; rw [FS.content_write_self, h]; rfl
  · exact FS.content_write_ne fs fd f data hf

theorem FS.ftruncate_not_open (fs : FS) (fd : Int)
    (h : fs.content fd = none) : fs.ftruncate fd = fs := by
  refine FS.eq_of_content rfl (fun f => ?_)
  by_cases hf : f = fd
  · subst hf; rw [FS.content_ftruncate_self, h]; rfl
  · exact FS.content_ftruncate_ne fs fd f hf

/-! ### Helper lemmas on newline counting and init color state -/

theorem leadNL_cons (c : Char) (t : Str) :
    leadNL (c :: t) = if c = nlChar then leadNL t + 1 else 0 := rfl

theorem leadNL_append_zero (X H : Str) (hX : leadNL X = 0) (hH : leadNL H = 0) :
    leadNL (X ++ H) = 0 := by
  cases X with
  | nil => simpa using hH
  | cons c t =>
    rw [leadNL_cons] at hX
    by_cases hc : c = nlChar
    · rw [if_pos hc] at hX; omega
    · rw [List.cons_append, leadNL_cons, if_neg hc]

theorem leadNL_reverse_logHeader (ms me now cat : Str) :
    leadNL (logHeader ms me now cat).reverse = 0 := by
  unfold logHeader
  rw [List.reverse_append]
  have h1 : (str " ").reverse = ' ' :: [] := rfl
  rw [h1, List.cons_append, leadNL_cons, if_neg (by decide)]

/-- The color flag and the three markup strings `Log_init` leaves behind,
as a function of the environment: they switch to the highlight constants
exactly when `colorOn env`. -/
theorem Log_init_color_fields (env : Env) :
    (Log_init env).1.enable_color = colorOn env ∧
    (Log_init env).1.info_markup_start_ =
      (if colorOn env then kInfoHighlight else str "INFO  ") ∧
    (Log_init env).1.error_markup_start_ =
      (if colorOn env then kErrorHighlight else str "ERROR ") ∧
    (Log_init env).1.markup_end_ =
      (if colorOn env then kTermReset else []) := by
  obtain ⟨fg, lg, pg, lok, laok, pok, tty, a, b, c, e⟩ := env
  cases fg <;> cases lg <;> cases pg <;> cases lok <;> cases laok <;>
    cases pok <;> cases tty <;> exact ⟨rfl, rfl, rfl, rfl⟩

/-! ### Claim C1 -/

/-- Claim C1 as stated is false: when opening the general log file fails,
`Log_init` returns at once, so the last-played and playback-duration files
are NOT opened even though their opens would have succeeded
(`envLogFail`): both descriptors keep the sentinel `-1`. -/
theorem C1_counterexample :
    (Log_init envLogFail).1.last_played_fd = -1 ∧
    (Log_init envLogFail).1.playback_fd = -1 := by
  decide

/-- Claim C1 (amended): `Log_init` attempts the three opens in the fixed
order general log, last-played, playback-duration, and returns at the first
failure.  A destination is configured afterward iff its path was given, its
own open succeeded, and every earlier requested open succeeded; so a
failure leaves the failing destination and all later ones unconfigured,
while destinations opened earlier remain configured. -/
theorem C1_open_order (env : Env) :
    (decide (0 ≤ (Log_init env).1.log_fd) =
      (env.filenameGiven && env.logOpenOk)) ∧
    (decide (0 ≤ (Log_init env).1.last_played_fd) =
      ((!env.filenameGiven || env.logOpenOk) &&
       (env.lastPlayedGiven && env.lastOpenOk))) ∧
    (decide (0 ≤ (Log_init env).1.playback_fd) =
      ((!env.filenameGiven || env.logOpenOk) &&
       (!env.lastPlayedGiven || env.lastOpenOk) &&
       (env.playbackGiven && env.playOpenOk))) := by
  obtain ⟨fg, lg, pg, lok, laok, pok, tty, a, b, c, e⟩ := env
  cases fg <;> cases lg <;> cases pg <;> cases lok <;> cases laok <;>
    cases pok <;> cases tty <;> exact ⟨rfl, rfl, rfl⟩

/-! ### Claim C2 -/

/-- Claim C2 as stated is false for `log_playback_duration`: with its own
destination unconfigured (`stLogOnly.playback_fd = -1`) but the general log
configured on descriptor 3 and debug level 0, the call still writes the
`Total playing time` line to the general log, so it does write bytes to
another configured destination. -/
theorem C2_counterexample :
    stLogOnly.playback_fd = -1 ∧
    (log_playback_duration 0 (str "2025-10-11 12:00:00") 0 10
        (stLogOnly, fsLogOnly)).2.content 3 ≠ fsLogOnly.content 3 := by
  decide

/-- Claim C2 (amended): `log_last_playback` with its destination
unconfigured is a complete no-op (descriptor `-1` is not open, so the
`ftruncate` and `write` fail transferring nothing); `log_playback_duration`
with its destination unconfigured writes nothing to any file through its
own `write`, but is not a no-op: it still reduces to its unconditional
`print_log` call, which emits the duration line whenever the debug level
admits it. -/
theorem C2_unconfigured (st : LoggerState) (fs : FS)
    (t dl t1 t2 : Int) (now : Str) (hnone : fs.content (-1) = none) :
    (st.last_played_fd = -1 → log_last_playback t (st, fs) = (st, fs)) ∧
    (st.playback_fd = -1 →
      log_playback_duration dl now t1 t2 (st, fs) =
        print_log dl 0 now (str "transport") (durationMsg (t2 - t1)) (st, fs)) := by
  constructor
  · intro h
    show (st, (fs.ftruncate st.last_played_fd).write st.last_played_fd
          (lastPlayedLine t)) = (st, fs)
    rw [h, FS.ftruncate_not_open fs (-1) hnone,
        FS.write_not_open fs (-1) _ hnone]
  · intro h
    show print_log dl 0 now (str "transport") (durationMsg (t2 - t1))
          (st, (fs.ftruncate st.playback_fd).write st.playback_fd
                (durationLine (t2 - t1))) = _
    rw [h, FS.ftruncate_not_open fs (-1) hnone,
        FS.write_not_open fs (-1) _ hnone]

/-- Witness for `C2_unconfigured` at a concrete state: the general log open
on descriptor 3, both state-file descriptors `-1`. -/
theorem C2_unconfigured_witness :
    fsLogOnly.content (-1) = none ∧ stLogOnly.last_played_fd = -1 ∧
    log_last_playback 7 (stLogOnly, fsLogOnly) = (stLogOnly, fsLogOnly) := by
  refine ⟨by decide, by decide, ?_⟩
  exact (C2_unconfigured stLogOnly fsLogOnly 7 0 0 0 (str "x") (by decide)).1 (by decide)

/-! ### Claim C3 -/

/-- Claim C3: for every markup pair, timestamp, category and rendered
message ending in at most one newline, the byte sequence `Log_internal`
writes (used by `Log_info`, `Log_error` and `print_log`) ends in exactly
one newline: the `"\n"` iovec part is included exactly when the message
does not already end in `'\n'`. -/
theorem C3_one_trailing_newline (ms me now cat msg : Str)
    (h : trailingNL msg ≤ 1) :
    trailingNL (logLine ms me now cat msg) = 1 := by
  have hH : leadNL (logHeader ms me now cat).reverse = 0 :=
    leadNL_reverse_logHeader ms me now cat
  unfold trailingNL at h ⊢
  unfold logLine
  by_cases hn : lastIsNewline msg = true
  · rw [if_pos hn, List.append_nil, List.reverse_append]
    have hg : msg.getLast? = some nlChar := by
      unfold lastIsNewline at hn
      exact of_decide_eq_true hn
    have hh : msg.reverse.head? = some nlChar := by
      rw [List.head?_reverse]; exact hg
    rcases hrev : msg.reverse with _ | ⟨c, r⟩
    · rw [hrev] at hh; simp at hh
    · have hc : c = nlChar := by
        rw [hrev] at hh; simpa using hh
      subst hc
      rw [hrev] at h
      rw [leadNL_cons, if_pos rfl] at h
      rw [List.cons_append, leadNL_cons, if_pos rfl,
          leadNL_append_zero r _ (by omega) hH]
  · rw [if_neg hn, List.reverse_append, List.reverse_append]
    have h2 : (nl : Str).reverse = [nlChar] := rfl
    rw [h2, List.singleton_append, leadNL_cons, if_pos rfl]
    have h0 : leadNL msg.reverse = 0 := by
      rcases hrev : msg.reverse with _ | ⟨c, r⟩
      · rfl
      · have hg : ¬ msg.getLast? = some nlChar := by
          unfold lastIsNewline at hn
          exact fun hcc => hn (decide_eq_true hcc)
        have hc : c ≠ nlChar := by
          intro hcc
          apply hg
          rw [← List.head?_reverse, hrev, hcc]
          rfl
        rw [leadNL_cons, if_neg hc]
    rw [leadNL_append_zero _ _ h0 hH]

/-- Witness for `C3_one_trailing_newline`: a message with no newline, and
the emitted line carries exactly one. -/
theorem C3_one_trailing_newline_witness :
    trailingNL (str "hello") ≤ 1 ∧
    trailingNL (logLine (str "INFO  ") [] (str "2025-10-11 12:00:00")
      (str "transport") (str "hello")) = 1 :=
  ⟨by decide, C3_one_trailing_newline (str "INFO  ") []
    (str "2025-10-11 12:00:00") (str "transport") (str "hello") (by decide)⟩

/-! ### Claim C4 -/

/-- Claim C4: `log_playback_duration` leaves exactly
`UPNP_TOTAL=<playend - playstart>\n` in the playback-duration file, and
(when the debug level admits level 0) appends the
`Total playing time %02d:%02d:%02d` message to the general log (or stderr);
the fields are `s/3600`, `(s/60)%60`, `s%60` with C truncating division, so
3725 renders as `01:02:05` and 90000 as `25:00:00` with no day rollover. -/
theorem C4_playback_duration (dl : Int) (now : Str) (st : LoggerState)
    (fs : FS) (t1 t2 : Int) (c : Str)
    (hconf : fs.content st.playback_fd = some c)
    (hne2 : st.playback_fd ≠ STDERR_FILENO)
    (hnelog : st.playback_fd ≠ st.log_fd) :
    ((log_playback_duration dl now t1 t2 (st, fs)).2.content st.playback_fd =
      some (durationLine (t2 - t1))) ∧
    (0 ≤ dl →
      (log_playback_duration dl now t1 t2 (st, fs)).2.content
          (if st.log_fd < 0 then STDERR_FILENO else st.log_fd) =
        (fs.content (if st.log_fd < 0 then STDERR_FILENO else st.log_fd)).map
          (fun c0 => c0 ++ logLine st.info_markup_start_ st.markup_end_ now
            (str "transport") (durationMsg (t2 - t1)))) ∧
    durationLine 3725 = str "UPNP_TOTAL=3725" ++ nl ∧
    durationMsg 3725 = str "Total playing time 01:02:05" ++ nl ∧
    durationMsg 90000 = str "Total playing time 25:00:00" ++ nl := by
  have key : log_playback_duration dl now t1 t2 (st, fs) =
      print_log dl 0 now (str "transport") (durationMsg (t2 - t1))
        (st, (fs.ftruncate st.playback_fd).write st.playback_fd
              (durationLine (t2 - t1))) := rfl
  have hfs1self : ((fs.ftruncate st.playback_fd).write st.playback_fd
      (durationLine (t2 - t1))).content st.playback_fd =
      some (durationLine (t2 - t1)) := by
    rw [FS.content_write_self, FS.content_ftruncate_self, hconf]; rfl
  have htgt : (if st.log_fd < 0 then STDERR_FILENO else st.log_fd) ≠
      st.playback_fd := by
    by_cases hl : st.log_fd < 0
    · rw [if_pos hl]; exact fun h => hne2 h.symm
    · rw [if_neg hl]; exact fun h => hnelog h.symm
  have hprint : ∀ fs' m, print_log dl 0 now (str "transport") m (st, fs') =
      if dl < 0 then (st, fs')
      else (st, fs'.write (if st.log_fd < 0 then STDERR_FILENO else st.log_fd)
        (logLine st.info_markup_start_ st.markup_end_ now (str "transport") m)) :=
    fun fs' m => rfl
  refine ⟨?_, ?_, by decide, by decide, by decide⟩
  · rw [key, hprint]
    by_cases hdl : dl < 0
    · rw [if_pos hdl]; exact hfs1self
    · rw [if_neg hdl]
      show (FS.write _ _ _).content st.playback_fd = _
      rw [FS.content_write_ne _ _ _ _ (Ne.symm htgt)]
      exact hfs1self
  · intro hdl0
    have hnot : ¬ dl < 0 := not_lt.mpr hdl0
    rw [key, hprint, if_neg hnot]
    show (FS.write _ _ _).content _ = _
    rw [FS.content_write_self, FS.content_write_ne _ _ _ _ htgt,
        FS.content_ftruncate_ne _ _ _ htgt]

/-- Witness for `C4_playback_duration`: all three files open (descriptors
3, 4, 5), debug level 0, a 3725-second playback. -/
theorem C4_playback_duration_witness :
    fsFull.content stFull.playback_fd = some [] ∧
    stFull.playback_fd ≠ STDERR_FILENO ∧ stFull.playback_fd ≠ stFull.log_fd ∧
    (log_playback_duration 0 (str "T") 0 3725 (stFull, fsFull)).2.content
      stFull.playback_fd = some (durationLine 3725) := by
  refine ⟨by decide, by decide, by decide, ?_⟩
  have h := (C4_playback_duration 0 (str "T") stFull fsFull 0 3725 []
    (by decide) (by decide) (by decide)).1
  simpa using h

/-! ### Claim C5 -/

/-- Effect of one `log_last_playback` call on a configured last-played
destination: the logger state is untouched and the file afterwards holds
exactly the one formatted line, whatever it held before. -/
theorem log_last_playback_content (st : LoggerState) (fs : FS) (c : Str)
    (t : Int) (h : fs.content st.last_played_fd = some c) :
    (log_last_playback t (st, fs)).1 = st ∧
    (log_last_playback t (st, fs)).2.content st.last_played_fd =
      some (lastPlayedLine t) := by
  refine ⟨rfl, ?_⟩
  show ((fs.ftruncate st.last_played_fd).write st.last_played_fd
    (lastPlayedLine t)).content st.last_played_fd = _
  rw [FS.content_write_self, FS.content_ftruncate_self, h]
  rfl

/-- Claim C5: `log_last_playback` truncates the last-played file and writes
the single line `UPNP_LAST_PLAYED='<UTC %F %T>'\n`, fully replacing prior
content; after two successive calls only the second line remains. -/
theorem C5_last_played_replaces (st : LoggerState) (fs : FS) (c : Str)
    (t t1 t2 : Int) (hconf : fs.content st.last_played_fd = some c) :
    ((log_last_playback t (st, fs)).2.content st.last_played_fd =
      some (lastPlayedLine t)) ∧
    ((log_last_playback t2 (log_last_playback t1 (st, fs))).2.content
      st.last_played_fd = some (lastPlayedLine t2)) := by
  refine ⟨(log_last_playback_content st fs c t hconf).2, ?_⟩
  have e1 : log_last_playback t1 (st, fs) =
      (st, (fs.ftruncate st.last_played_fd).write st.last_played_fd
            (lastPlayedLine t1)) := rfl
  rw [e1]
  refine (log_last_playback_content st _ (lastPlayedLine t1) t2 ?_).2
  rw [FS.content_write_self, FS.content_ftruncate_self, hconf]
  rfl

/-- Witness for `C5_last_played_replaces`: concrete state with the
last-played file on descriptor 4, timestamps 0 and 86400; epoch renders as
`1970-01-01 00:00:00`. -/
theorem C5_last_played_replaces_witness :
    fsFull.content stFull.last_played_fd = some [] ∧
    (log_last_playback 86400 (log_last_playback 0 (stFull, fsFull))).2.content
      stFull.last_played_fd = some (lastPlayedLine 86400) ∧
    lastPlayedLine 0 = str "UPNP_LAST_PLAYED=" ++ [squote] ++
      str "1970-01-01 00:00:00" ++ [squote] ++ nl := by
  refine ⟨by decide, ?_, by decide⟩
  exact (C5_last_played_replaces stFull fsFull [] 0 0 86400 (by decide)).2

/-! ### Claim C6 -/

/-- Claim C6: `Log_info_enabled` is false exactly when the general log was
never successfully opened; in that state `Log_info` writes zero bytes to
any destination (the whole descriptor table is unchanged), while
`Log_error` still appends its formatted line to standard error. -/
theorem C6_info_enabled (env : Env) (st : LoggerState) (fs : FS)
    (now cat msg : Str) (hoff : st.log_fd < 0) :
    (Log_info_enabled (Log_init env).1 =
      (env.filenameGiven && env.logOpenOk)) ∧
    (Log_info_enabled (Log_init env).1 = false ↔
      ¬(env.filenameGiven = true ∧ env.logOpenOk = true)) ∧
    Log_info now cat msg (st, fs) = (st, fs) ∧
    (Log_error now cat msg (st, fs)).2.content STDERR_FILENO =
      (fs.content STDERR_FILENO).map
        (fun c => c ++ logLine st.error_markup_start_ st.markup_end_ now cat msg) := by
  have h1 : Log_info_enabled (Log_init env).1 =
      (env.filenameGiven && env.logOpenOk) := by
    obtain ⟨fg, lg, pg, lok, laok, pok, tty, a, b, c, e⟩ := env
    cases fg <;> cases lg <;> cases pg <;> cases lok <;> cases laok <;>
      cases pok <;> cases tty <;> rfl
  have h2 : Log_info now cat msg (st, fs) = (st, fs) := by
    show (if st.log_fd < 0 then (st, fs)
          else (st, Log_internal st fs st.log_fd st.info_markup_start_ now cat msg))
        = (st, fs)
    rw [if_pos hoff]
  refine ⟨h1, ?_, h2, ?_⟩
  · rw [h1]
    cases hfg : env.filenameGiven <;> cases hok : env.logOpenOk <;> simp
  · show (Log_internal st fs (if st.log_fd < 0 then STDERR_FILENO else st.log_fd)
      st.error_markup_start_ now cat msg).content STDERR_FILENO = _
    rw [if_pos hoff]
    show (FS.write _ _ _).content _ = _
    rw [FS.content_write_self]

/-- Witness for `C6_info_enabled`: the start state has no log descriptor;
`Log_info` is a no-op there and `Log_error` lands on stderr. -/
theorem C6_info_enabled_witness :
    startState.log_fd < 0 ∧
    Log_info (str "T") (str "cat") (str "m") (startState, startFS) =
      (startState, startFS) ∧
    (Log_error (str "T") (str "cat") (str "m") (startState, startFS)).2.content
      STDERR_FILENO =
      (startFS.content STDERR_FILENO).map
        (fun c => c ++ logLine startState.error_markup_start_
          startState.markup_end_ (str "T") (str "cat") (str "m")) := by
  have h := C6_info_enabled envAllOk startState startFS (str "T") (str "cat")
    (str "m") (by decide)
  exact ⟨by decide, h.2.2.1, h.2.2.2⟩

/-! ### Claim C7 -/

/-- Claim C7: `print_log` emits nothing when `level` exceeds the global
debug threshold; otherwise it appends exactly one formatted line to the
general log when configured and to standard error when not (unlike
`Log_info`, it does not suppress on a missing general log destination). -/
theorem C7_print_log_threshold (dl level : Int) (now cat msg : Str)
    (st : LoggerState) (fs : FS) (f : Int) :
    (dl < level → print_log dl level now cat msg (st, fs) = (st, fs)) ∧
    (level ≤ dl →
      (print_log dl level now cat msg (st, fs)).2.content f =
        (if f = (if st.log_fd < 0 then STDERR_FILENO else st.log_fd)
         then (fs.content f).map
           (fun c => c ++ logLine st.info_markup_start_ st.markup_end_ now cat msg)
         else fs.content f)) := by
  have key : print_log dl level now cat msg (st, fs) =
      if dl < level then (st, fs)
      else (st, fs.write (if st.log_fd < 0 then STDERR_FILENO else st.log_fd)
        (logLine st.info_markup_start_ st.markup_end_ now cat msg)) := rfl
  constructor
  · intro h
    rw [key, if_pos h]
  · intro h
    rw [key, if_neg (not_lt.mpr h)]
    show (FS.write _ _ _).content f = _
    rfl

/-- Witness for `C7_print_log_threshold`: a level-0 message is suppressed
at threshold `-1`, and at threshold `0` with no log descriptor it lands on
standard error. -/
theorem C7_print_log_threshold_witness :
    ((-1 : Int) < 0 ∧
      print_log (-1) 0 (str "T") (str "c") (str "m") (stFull, fsFull) =
        (stFull, fsFull)) ∧
    ((0 : Int) ≤ 0 ∧
      (print_log 0 0 (str "T") (str "c") (str "m")
          (startState, startFS)).2.content STDERR_FILENO =
        (startFS.content STDERR_FILENO).map
          (fun c => c ++ logLine startState.info_markup_start_
            startState.markup_end_ (str "T") (str "c") (str "m"))) := by
  constructor
  · exact ⟨by decide, (C7_print_log_threshold (-1) 0 (str "T") (str "c")
      (str "m") stFull fsFull 0).1 (by decide)⟩
  · refine ⟨by decide, ?_⟩
    have h := (C7_print_log_threshold 0 0 (str "T") (str "c") (str "m")
      startState startFS STDERR_FILENO).2 (by decide)
    simpa [startState, STDERR_FILENO] using h

/-! ### Claim C8 -/

theorem not_mem_append {α : Type} {a : α} {l1 l2 : List α}
    (h1 : a ∉ l1) (h2 : a ∉ l2) : a ∉ l1 ++ l2 := by
  intro h
  rcases List.mem_append.mp h with h | h
  · exact h1 h
  · exact h2 h

theorem fst_ite {α β : Type} (c : Prop) [Decidable c] (x : α) (y z : β) :
    (if c then (x, y) else (x, z)).1 = x := by
  by_cases h : c
  · rw [if_pos h]
  · rw [if_neg h]

/-- A log line assembled from escape-free markup strings, timestamp,
category and message contains no ANSI escape character. -/
theorem escChar_not_mem_logLine (ms me now cat msg : Str)
    (h1 : escChar ∉ ms) (h2 : escChar ∉ me) (h3 : escChar ∉ now)
    (h4 : escChar ∉ cat) (h5 : escChar ∉ msg) :
    escChar ∉ logLine ms me now cat msg := by
  unfold logLine logHeader
  refine not_mem_append (not_mem_append (not_mem_append (not_mem_append
    (not_mem_append (not_mem_append (not_mem_append (not_mem_append
      (not_mem_append h1 (by decide)) h3) (by decide)) h4) (by decide)) h2)
    (by decide)) h5) ?_
  split
  · decide
  · decide

/-- Claim C8: no operation after `Log_init` changes any logger global (in
particular the color flag and the three markup strings), and whenever the
general log destination is not an interactive terminal, `Log_init` leaves
color disabled with the plain markup strings, so every assembled log line
built from escape-free inputs contains no ANSI escape character. -/
theorem C8_color_invariant (env : Env) (dl level t t1 t2 : Int)
    (now cat msg : Str) (p : LoggerState × FS)
    (htty : env.logIsTty = false)
    (h3 : escChar ∉ now) (h4 : escChar ∉ cat) (h5 : escChar ∉ msg) :
    ((Log_info now cat msg p).1 = p.1 ∧
     (Log_error now cat msg p).1 = p.1 ∧
     (print_log dl level now cat msg p).1 = p.1 ∧
     (log_last_playback t p).1 = p.1 ∧
     (log_playback_duration dl now t1 t2 p).1 = p.1) ∧
    Log_color_allowed (Log_init env).1 = false ∧
    (Log_init env).1.info_markup_start_ = str "INFO  " ∧
    (Log_init env).1.error_markup_start_ = str "ERROR " ∧
    (Log_init env).1.markup_end_ = [] ∧
    escChar ∉ logLine (Log_init env).1.info_markup_start_
      (Log_init env).1.markup_end_ now cat msg ∧
    escChar ∉ logLine (Log_init env).1.error_markup_start_
      (Log_init env).1.markup_end_ now cat msg := by
  obtain ⟨st, fs⟩ := p
  have hcol : colorOn env = false := by
    simp [colorOn, htty]
  obtain ⟨hc1, hc2, hc3, hc4⟩ := Log_init_color_fields env
  rw [hcol] at hc1 hc2 hc3 hc4
  simp only [Bool.false_eq_true, if_false] at hc2 hc3 hc4
  refine ⟨⟨fst_ite _ _ _ _, rfl, fst_ite _ _ _ _, rfl, fst_ite _ _ _ _⟩,
    hc1, hc2, hc3, hc4, ?_, ?_⟩
  · rw [hc2, hc4]
    exact escChar_not_mem_logLine _ _ _ _ _ (by decide) (by decide) h3 h4 h5
  · rw [hc3, hc4]
    exact escChar_not_mem_logLine _ _ _ _ _ (by decide) (by decide) h3 h4 h5

/-- Witness for `C8_color_invariant`: all files open onto regular files
(no terminal), an escape-free message. -/
theorem C8_color_invariant_witness :
    envAllOk.logIsTty = false ∧
    Log_color_allowed (Log_init envAllOk).1 = false ∧
    (log_last_playback 0 (stFull, fsFull)).1 = stFull := by
  have h := C8_color_invariant envAllOk 0 0 0 0 0 (str "T") (str "c")
    (str "m") (stFull, fsFull) (by decide) (by decide) (by decide) (by decide)
  exact ⟨by decide, h.2.1, h.1.2.2.2.1⟩

/-! ### Claim C9 -/

/-- Claim C9: when opening the last-played or playback-duration file fails,
`Log_init` returns before the `isatty` check, so color stays disabled and
the plain markup strings remain, even though the already-opened general log
destination is an interactive terminal. -/
theorem C9_early_return_skips_color (env : Env)
    (hfg : env.filenameGiven = true) (hok : env.logOpenOk = true)
    (htty : env.logIsTty = true)
    (hfail : (env.lastPlayedGiven = true ∧ env.lastOpenOk = false) ∨
             (env.playbackGiven = true ∧ env.playOpenOk = false)) :
    (Log_init env).1.enable_color = false ∧
    (Log_init env).1.info_markup_start_ = str "INFO  " ∧
    (Log_init env).1.error_markup_start_ = str "ERROR " ∧
    (Log_init env).1.markup_end_ = [] := by
  have hcol : colorOn env = false := by
    rcases hfail with ⟨ha, hb⟩ | ⟨ha, hb⟩ <;> simp [colorOn, ha, hb]
  obtain ⟨hc1, hc2, hc3, hc4⟩ := Log_init_color_fields env
  rw [hcol] at hc1 hc2 hc3 hc4
  simp only [Bool.false_eq_true, if_false] at hc2 hc3 hc4
  exact ⟨hc1, hc2, hc3, hc4⟩

/-- Witness for `C9_early_return_skips_color`: general log opens onto a
terminal, last-played open fails. -/
theorem C9_early_return_skips_color_witness :
    envTtyLastFail.logIsTty = true ∧
    (Log_init envTtyLastFail).1.enable_color = false ∧
    (Log_init envTtyLastFail).1.info_markup_start_ = str "INFO  " := by
  have h := C9_early_return_skips_color envTtyLastFail (by decide) (by decide)
    (by decide) (Or.inl (by decide))
  exact ⟨by decide, h.1, h.2.1⟩

/-! ### Claim C10 -/

/-- Claim C10: the `Total playing time` line of `log_playback_duration`
goes through the level-0 `print_log` path: with a negative debug threshold
nothing is emitted (only the playback file itself is touched), and with the
threshold admitting level 0 but no general log configured the line is
appended to standard error rather than skipped. -/
theorem C10_duration_line_level0 (dl t1 t2 : Int) (now : Str)
    (st : LoggerState) (fs : FS) :
    (dl < 0 → ∀ f, f ≠ st.playback_fd →
      (log_playback_duration dl now t1 t2 (st, fs)).2.content f =
        fs.content f) ∧
    (0 ≤ dl → st.log_fd < 0 → st.playback_fd ≠ STDERR_FILENO →
      (log_playback_duration dl now t1 t2 (st, fs)).2.content STDERR_FILENO =
        (fs.content STDERR_FILENO).map
          (fun c => c ++ logLine st.info_markup_start_ st.markup_end_ now
            (str "transport") (durationMsg (t2 - t1)))) := by
  have key : log_playback_duration dl now t1 t2 (st, fs) =
      print_log dl 0 now (str "transport") (durationMsg (t2 - t1))
        (st, (fs.ftruncate st.playback_fd).write st.playback_fd
              (durationLine (t2 - t1))) := rfl
  have hprint : ∀ fs' m, print_log dl 0 now (str "transport") m (st, fs') =
      if dl < 0 then (st, fs')
      else (st, fs'.write (if st.log_fd < 0 then STDERR_FILENO else st.log_fd)
        (logLine st.info_markup_start_ st.markup_end_ now (str "transport") m)) :=
    fun fs' m => rfl
  constructor
  · intro hdl f hf
    rw [key, hprint, if_pos hdl]
    show (FS.write _ _ _).content f = _
    rw [FS.content_write_ne _ _ _ _ hf, FS.content_ftruncate_ne _ _ _ hf]
  · intro hdl hlog hne
    rw [key, hprint, if_neg (not_lt.mpr hdl), if_pos hlog]
    show (FS.write _ _ _).content _ = _
    rw [FS.content_write_self, FS.content_write_ne _ _ _ _ (Ne.symm hne),
        FS.content_ftruncate_ne _ _ _ (Ne.symm hne)]

/-- Witness for `C10_duration_line_level0`: at threshold `-1` the general
log (descriptor 3) is untouched; at threshold `0` with no log descriptor
the line lands on stderr. -/
theorem C10_duration_line_level0_witness :
    ((-1 : Int) < 0 ∧
      (log_playback_duration (-1) (str "T") 0 5
        (startState, startFS)).2.content 3 = startFS.content 3) ∧
    ((0 : Int) ≤ 0 ∧ startState.log_fd < 0 ∧
      (log_playback_duration 0 (str "T") 0 5
          (startState, startFS)).2.content STDERR_FILENO =
        (startFS.content STDERR_FILENO).map
          (fun c => c ++ logLine startState.info_markup_start_
            startState.markup_end_ (str "T") (str "transport")
            (durationMsg 5))) := by
  constructor
  · exact ⟨by decide, (C10_duration_line_level0 (-1) 0 5 (str "T") startState
      startFS).1 (by decide) 3 (by decide)⟩
  · refine ⟨by decide, by decide, ?_⟩
    have h := (C10_duration_line_level0 0 0 5 (str "T") startState
      startFS).2 (by decide) (by decide) (by decide)
    simpa using h

end GmLogging
